import Mathlib

/-!
Shallow embedding of the OTP issuance/verification component of the VidZen
repository (src/server/otp-service.ts, src/server/sendgrid-service.ts, and
the code generator in the shared utils module), together with theorems
checking the specification claims against it.

Modelling conventions:
* JavaScript `Date.now()` is a `Nat` parameter `now` (milliseconds).
* `Math.floor(100000 + Math.random() * 900000)` produces `100000 + k` for
  some `k < 900000`; the randomness is the parameter `k`.
* The `Map` used as OTP store is modelled as a function
  `String → Option OTPRecord` (a JavaScript Map holds at most one entry
  per key; `set` overwrites, `delete` removes).
* A possibly-throwing async call is an `Except String` value passed in as
  a parameter describing its outcome.
-/

namespace VidZen

/-- The record stored per mobile number: the code and its absolute expiry
timestamp in milliseconds (interface OTPRecord in otp-service.ts). -/
structure OTPRecord where
  otp : String
  expiresAt : Nat
deriving Repr, DecidableEq

/-- The mutable fields of the OTPService class: the per-mobile store and the
process-wide latest code / latest mobile kept for development access. -/
structure OTPServiceState where
  otpStore : String → Option OTPRecord
  latestOtp : Option String
  latestMobile : Option String

/-- The state of the freshly constructed OTPService singleton: empty store,
no latest code. -/
def initialState : OTPServiceState :=
  { otpStore := fun _ => none, latestOtp := none, latestMobile := none }

/-- generateOTP from the shared utils module:
Math.floor(100000 + Math.random() * 900000).toString().
Math.random() ranges over [0,1), so the floored value is 100000 + k with
k < 900000; the parameter k is the randomness. -/
def generateOTP (k : Nat) : String :=
  toString (100000 + k)

/-- OTPService.generateUniqueOTP: generate a code, store it for the mobile
with expiry now + 5 minutes, record it as the latest code, return it. -/
def generateUniqueOTP (s : OTPServiceState) (mobile : String) (k now : Nat) :
    String × OTPServiceState :=
  let otp := generateOTP k
  (otp,
    { otpStore := fun m =>
        if m = mobile then some { otp := otp, expiresAt := now + 5 * 60 * 1000 }
        else s.otpStore m,
      latestOtp := some otp,
      latestMobile := some mobile })

/-- sendSms from sendgrid-service.ts. The whole body is wrapped in a
try/catch: if the mail service is unavailable the send is simulated and
true is returned; if the underlying send throws, the error is caught, a
fallback message is logged and true is returned; so the function never
throws and always returns true. The parameter sendResult is the outcome of
the underlying mailService.send call. -/
def sendSms (mailServiceAvailable : Bool) (sendResult : Except String Unit) :
    Except String Bool :=
  if mailServiceAvailable = false then
    Except.ok true
  else
    match sendResult with
    | Except.ok _ => Except.ok true
    | Except.error _ => Except.ok true

/-- OTPService.sendOTP: generate and store a code via generateUniqueOTP,
then attempt delivery; the await of sendSms sits inside try/catch, so
whatever its outcome (value or thrown error, the parameter smsResult) the
method completes normally with the post-store state. -/
def sendOTP (s : OTPServiceState) (mobile : String) (k now : Nat)
    (smsResult : Except String Bool) : OTPServiceState :=
  let res := generateUniqueOTP s mobile k now
  match smsResult with
  | Except.ok _ => res.2
  | Except.error _ => res.2

/-- OTPService.verifyOTP: look up the record; if absent or
record.expiresAt less than now, return false; otherwise compare the code,
delete the record when it matches, and return the comparison result.
Returns the boolean result together with the state after the call. -/
def verifyOTP (s : OTPServiceState) (mobile otpToVerify : String) (now : Nat) :
    Bool × OTPServiceState :=
  match s.otpStore mobile with
  | none => (false, s)
  | some record =>
    if record.expiresAt < now then
      (false, s)
    else
      let isValid := record.otp = otpToVerify
      if isValid then
        (true, { s with otpStore := fun m => if m = mobile then none else s.otpStore m })
      else
        (false, s)

/-- OTPService.getLatestOtpForDevelopment: returns the latest generated
code, or null when none has been generated. -/
def getLatestOtpForDevelopment (s : OTPServiceState) : Option String :=
  s.latestOtp

/-- A concrete state holding exactly one record, for mobile 5550001, with
code 123456 expiring at timestamp 5. -/
def boundaryState : OTPServiceState :=
  { otpStore := fun m =>
      if m = "5550001" then some { otp := "123456", expiresAt := 5 } else none,
    latestOtp := some "123456",
    latestMobile := some "5550001" }

/-- A concrete state holding exactly one record, for mobile 5550002, with
code 654321 expiring at timestamp 10. -/
def expiredState : OTPServiceState :=
  { otpStore := fun m =>
      if m = "5550002" then some { otp := "654321", expiresAt := 10 } else none,
    latestOtp := some "654321",
    latestMobile := some "5550002" }

/-! ### Decimal representation of the generated codes

JavaScript Number.toString() on an integer prints its decimal digits;
the embedding uses toString on Nat, which is Nat.repr, built from
Nat.toDigitsCore. The lemmas below characterise that representation for
positive numbers via the fuel-free recursion toDigitsList. -/

/-- The decimal digit characters of n, most significant first, as produced
by repeated division by 10 (single digit for n below 10). -/
def toDigitsList (n : Nat) : List Char :=
  if _h : n < 10 then [Nat.digitChar n]
  else toDigitsList (n / 10) ++ [Nat.digitChar (n % 10)]
decreasing_by
  exact Nat.div_lt_self (by omega) (by omega)

theorem toDigitsList_small (n : Nat) (h : n < 10) :
    toDigitsList n = [Nat.digitChar n] := by
  rw [toDigitsList]
  simp [h]

theorem toDigitsList_large (n : Nat) (h : ¬ n < 10) :
    toDigitsList n = toDigitsList (n / 10) ++ [Nat.digitChar (n % 10)] := by
  conv_lhs => rw [toDigitsList]
  simp [h]

/-- With enough fuel, Nat.toDigitsCore on a positive number produces
exactly the digit characters of toDigitsList, prepended to the
accumulator. -/
theorem toDigitsCore_eq_toDigitsList (f : Nat) :
    ∀ (n : Nat) (ds : List Char), 0 < n → n < 10 ^ f →
      Nat.toDigitsCore 10 f n ds = toDigitsList n ++ ds := by
  induction f with
  | zero =>
    intro n ds h1 h2
    simp at h2
    omega
  | succ f ih =>
    intro n ds h1 h2
    by_cases hn : n / 10 = 0
    · have hsmall : n < 10 := by omega
      rw [toDigitsList_small n hsmall]
      simp [Nat.toDigitsCore, hn, Nat.mod_eq_of_lt hsmall]
    · have hbig : ¬ n < 10 := by omega
      rw [toDigitsList_large n hbig]
      have hlt : n / 10 < 10 ^ f := by
        rw [Nat.div_lt_iff_lt_mul (by norm_num)]
        calc n < 10 ^ (f + 1) := h2
        _ = 10 ^ f * 10 := by ring
      have := ih (n / 10) (Nat.digitChar (n % 10) :: ds)
        (Nat.pos_of_ne_zero hn) hlt
      simp [Nat.toDigitsCore, hn, this]

/-- For positive n, the printed decimal string of n is the toDigitsList
characters. -/
theorem toString_eq_toDigitsList (n : Nat) (h : 0 < n) :
    toString n = (toDigitsList n).asString := by
  show Nat.repr n = _
  rw [Nat.repr, Nat.toDigits]
  have hfuel : n < 10 ^ (n + 1) :=
    lt_of_lt_of_le (Nat.lt_pow_self (by norm_num) n)
      (Nat.pow_le_pow_right (by norm_num) (Nat.le_succ n))
  rw [toDigitsCore_eq_toDigitsList (n + 1) n [] h hfuel]
  simp

/-- The length of the decimal digit list of an e+1 digit number. -/
theorem toDigitsList_length :
    ∀ (e n : Nat), 10 ^ e ≤ n → n < 10 ^ (e + 1) →
      (toDigitsList n).length = e + 1 := by
  intro e
  induction e with
  | zero =>
    intro n h1 h2
    simp at h1 h2
    rw [toDigitsList_small n h2]
    rfl
  | succ e ih =>
    intro n h1 h2
    have hten : (10 : Nat) ^ 1 ≤ 10 ^ (e + 1) :=
      Nat.pow_le_pow_right (by norm_num) (by omega)
    have hbig : ¬ n < 10 := by
      simp at hten
      omega
    rw [toDigitsList_large n hbig, List.length_append]
    have hlow : 10 ^ e ≤ n / 10 := by
      rw [Nat.le_div_iff_mul_le (by norm_num)]
      calc 10 ^ e * 10 = 10 ^ (e + 1) := by ring
      _ ≤ n := h1
    have hhigh : n / 10 < 10 ^ (e + 1) := by
      rw [Nat.div_lt_iff_lt_mul (by norm_num)]
      calc n < 10 ^ (e + 1 + 1) := h2
      _ = 10 ^ (e + 1) * 10 := by ring
    rw [ih (n / 10) hlow hhigh]
    rfl

/-- Every digit value below ten prints as an ASCII digit character. -/
theorem digitChar_isDigit : ∀ d < 10, (Nat.digitChar d).isDigit = true := by
  decide

/-- Every digit value below ten prints as a character whose code point
minus 48 recovers the value. -/
theorem digitChar_toNat : ∀ d < 10, (Nat.digitChar d).toNat - 48 = d := by
  decide

/-- All characters of the decimal digit list are ASCII digits. -/
theorem toDigitsList_mem_isDigit (n : Nat) :
    ∀ c ∈ toDigitsList n, c.isDigit = true := by
  induction n using Nat.strong_induction_on with
  | _ n ih =>
    by_cases h : n < 10
    · rw [toDigitsList_small n h]
      intro c hc
      simp at hc
      subst hc
      exact digitChar_isDigit n h
    · rw [toDigitsList_large n h]
      intro c hc
      rw [List.mem_append] at hc
      rcases hc with hc | hc
      · exact ih (n / 10) (Nat.div_lt_self (by omega) (by omega)) c hc
      · simp at hc
        subst hc
        exact digitChar_isDigit (n % 10) (Nat.mod_lt n (by omega))

/-- The decimal digit list is never empty. -/
theorem toDigitsList_ne_nil (n : Nat) : toDigitsList n ≠ [] := by
  by_cases h : n < 10
  · rw [toDigitsList_small n h]
    simp
  · rw [toDigitsList_large n h]
    simp

/-- Folding the decimal-parsing step over the digit list of n recovers n
(shifted under any accumulator). -/
theorem toDigitsList_foldl (n : Nat) : ∀ (a : Nat),
    (toDigitsList n).foldl (fun acc c => acc * 10 + (c.toNat - 48)) a =
      a * 10 ^ (toDigitsList n).length + n := by
  induction n using Nat.strong_induction_on with
  | _ n ih =>
    intro a
    by_cases h : n < 10
    · rw [toDigitsList_small n h]
      simp [digitChar_toNat n h]
    · rw [toDigitsList_large n h]
      rw [List.foldl_append]
      rw [ih (n / 10) (Nat.div_lt_self (by omega) (by omega)) a]
      simp only [List.foldl_cons, List.foldl_nil, List.length_append,
        List.length_cons, List.length_nil]
      rw [digitChar_toNat (n % 10) (Nat.mod_lt n (by omega))]
      have hmod : n / 10 * 10 + n % 10 = n := by omega
      calc (a * 10 ^ (toDigitsList (n / 10)).length + n / 10) * 10 + n % 10
          = a * (10 ^ (toDigitsList (n / 10)).length * 10) +
              (n / 10 * 10 + n % 10) := by ring
      _ = a * 10 ^ ((toDigitsList (n / 10)).length + (0 + 1)) + n := by
          rw [hmod]
          ring

/-- The decimal string of a positive number parses back to it through
String.toNat?. -/
theorem toNat?_toString (n : Nat) (h : 0 < n) :
    (toString n).toNat? = some n := by
  rw [toString_eq_toDigitsList n h]
  have hne : toDigitsList n ≠ [] := toDigitsList_ne_nil n
  have hisEmpty : ((toDigitsList n).asString).isEmpty = false := by
    rw [Bool.eq_false_iff]
    intro hemp
    rw [String.isEmpty_iff] at hemp
    apply hne
    have hdata := congrArg String.data hemp
    simpa using hdata
  have hall : ((toDigitsList n).asString).all (·.isDigit) = true := by
    rw [String.all_iff]
    intro c hc
    exact toDigitsList_mem_isDigit n c hc
  have hisNat : ((toDigitsList n).asString).isNat = true := by
    rw [String.isNat, hisEmpty, hall]
    rfl
  have h0 : Char.toNat (Char.ofNat 48) = 48 := rfl
  simp only [String.toNat?, hisNat, if_true]
  rw [String.foldl_eq]
  have hfold := toDigitsList_foldl n 0
  simp only [Nat.zero_mul, Nat.zero_add] at hfold
  simpa [h0] using hfold

/-- The try/catch around the delivery call makes sendOTP insensitive to the
delivery outcome: it always returns the state produced by
generateUniqueOTP. -/
theorem sendOTP_eq_gen (s : OTPServiceState) (d : String) (k now : Nat)
    (r : Except String Bool) :
    sendOTP s d k now r = (generateUniqueOTP s d k now).2 := by
  cases r <;> rfl

/-- After generateUniqueOTP, the store maps the mobile to the fresh record
with expiry now + 5 minutes. -/
theorem gen_store_self (s : OTPServiceState) (d : String) (k now : Nat) :
    ((generateUniqueOTP s d k now).2).otpStore d =
      some { otp := generateOTP k, expiresAt := now + 5 * 60 * 1000 } := by
  simp [generateUniqueOTP]

/-- generateUniqueOTP leaves every other key of the store unchanged. -/
theorem gen_store_other (s : OTPServiceState) (d d₂ : String) (k now : Nat)
    (h : d₂ ≠ d) :
    ((generateUniqueOTP s d k now).2).otpStore d₂ = s.otpStore d₂ := by
  simp [generateUniqueOTP, h]

/-- verifyOTP on a present, unexpired record with the matching code returns
true and removes exactly that entry from the store. -/
theorem verifyOTP_hit (s : OTPServiceState) (d c : String) (r : OTPRecord)
    (now : Nat) (hrec : s.otpStore d = some r) (hexp : ¬ r.expiresAt < now)
    (heq : r.otp = c) :
    verifyOTP s d c now =
      (true, { s with otpStore := fun m => if m = d then none else s.otpStore m }) := by
  simp [verifyOTP, hrec, hexp, heq]

/-- verifyOTP on a present, unexpired record with a non-matching code
returns false and leaves the state untouched. -/
theorem verifyOTP_miss (s : OTPServiceState) (d c : String) (r : OTPRecord)
    (now : Nat) (hrec : s.otpStore d = some r) (hexp : ¬ r.expiresAt < now)
    (hne : r.otp ≠ c) :
    verifyOTP s d c now = (false, s) := by
  simp [verifyOTP, hrec, hexp, hne]

/-- verifyOTP with no record, or with a record whose expiry is strictly in
the past, returns false and leaves the state untouched. -/
theorem verifyOTP_dead (s : OTPServiceState) (d c : String) (now : Nat)
    (h : s.otpStore d = none ∨ ∃ r, s.otpStore d = some r ∧ r.expiresAt < now) :
    verifyOTP s d c now = (false, s) := by
  rcases h with h | ⟨r, hrec, hexp⟩
  · simp [verifyOTP, h]
  · simp [verifyOTP, hrec, hexp]

/-- Every verifyOTP call either leaves the state untouched, or returns true
and removes exactly the looked-up key. -/
theorem verifyOTP_mutation (t : OTPServiceState) (d x : String) (m : Nat) :
    (verifyOTP t d x m).2 = t ∨
      ((verifyOTP t d x m).1 = true ∧
        (verifyOTP t d x m).2 =
          { t with otpStore := fun y => if y = d then none else t.otpStore y }) := by
  unfold verifyOTP
  cases hrec : t.otpStore d with
  | none => exact Or.inl rfl
  | some r =>
    by_cases hexp : r.expiresAt < m
    · simp [hexp]
    · by_cases heq : r.otp = x
      · simp [hexp, heq]
      · simp [hexp, heq]

/-! ### Claim theorems -/

/-- C1: after requestCode stores code c for destination d, a verify of
(d, c) performed before the record expires returns true, and a second
verify of (d, c) immediately after the successful one returns false,
because the record is removed on the successful verify (one-time use). -/
theorem requestCode_then_verify_one_time (s : OTPServiceState) (d : String)
    (k now now₂ : Nat) (smsResult : Except String Bool)
    (h : now₂ ≤ now + 5 * 60 * 1000) :
    (verifyOTP (sendOTP s d k now smsResult) d (generateOTP k) now₂).1 = true ∧
    (verifyOTP (verifyOTP (sendOTP s d k now smsResult) d (generateOTP k) now₂).2
        d (generateOTP k) now₂).1 = false := by
  rw [sendOTP_eq_gen]
  have hrec := gen_store_self s d k now
  have hexp : ¬ (now + 5 * 60 * 1000) < now₂ := by omega
  have hhit := verifyOTP_hit (generateUniqueOTP s d k now).2 d (generateOTP k)
    { otp := generateOTP k, expiresAt := now + 5 * 60 * 1000 } now₂ hrec hexp rfl
  refine ⟨by rw [hhit], ?_⟩
  rw [hhit]
  have hdead := verifyOTP_dead
    { (generateUniqueOTP s d k now).2 with
        otpStore := fun m =>
          if m = d then none else ((generateUniqueOTP s d k now).2).otpStore m }
    d (generateOTP k) now₂ (Or.inl (by simp))
  rw [hdead]

/-- C1 witness: concrete run from the empty state at destination 5550001
with randomness 0 and both verifies at time 0. -/
theorem requestCode_then_verify_one_time_witness :
    (0 : Nat) ≤ 0 + 5 * 60 * 1000 ∧
    ((verifyOTP (sendOTP initialState "5550001" 0 0 (Except.ok true))
        "5550001" (generateOTP 0) 0).1 = true ∧
      (verifyOTP (verifyOTP (sendOTP initialState "5550001" 0 0 (Except.ok true))
            "5550001" (generateOTP 0) 0).2 "5550001" (generateOTP 0) 0).1 = false) :=
  ⟨by omega,
    requestCode_then_verify_one_time initialState "5550001" 0 0 0
      (Except.ok true) (by omega)⟩

/-- C2 counterexample: the claim says verify returns false whenever the
stored record satisfies expiresAt ≤ now; but at now exactly equal to
expiresAt the code still accepts the stored code, because the source
checks the strict inequality expiresAt < now. -/
theorem verify_at_exact_expiry_succeeds :
    boundaryState.otpStore "5550001" = some { otp := "123456", expiresAt := 5 } ∧
    ({ otp := "123456", expiresAt := 5 : OTPRecord }).expiresAt ≤ 5 ∧
    (verifyOTP boundaryState "5550001" "123456" 5).1 = true := by
  refine ⟨rfl, le_refl 5, ?_⟩
  rfl

/-- C2 amended: verify returns false whenever no record exists for the
destination or the stored record satisfies expiresAt < now (strictly in
the past), even when the candidate equals the stored code, and the two
failure cases are indistinguishable to the caller (both yield the same
result, false, with the state untouched). -/
theorem verify_absent_or_expired_false (s : OTPServiceState) (d c : String)
    (now : Nat)
    (h : s.otpStore d = none ∨ ∃ r, s.otpStore d = some r ∧ r.expiresAt < now) :
    verifyOTP s d c now = (false, s) :=
  verifyOTP_dead s d c now h

/-- C2 amended witness: the never-requested case on the empty state and the
strictly expired case on a concrete state both yield (false, state). -/
theorem verify_absent_or_expired_false_witness :
    verifyOTP initialState "5550009" "100000" 7 = (false, initialState) ∧
    verifyOTP expiredState "5550002" "654321" 11 = (false, expiredState) :=
  ⟨verify_absent_or_expired_false initialState "5550009" "100000" 7 (Or.inl rfl),
    verify_absent_or_expired_false expiredState "5550002" "654321" 11
      (Or.inr ⟨{ otp := "654321", expiresAt := 10 }, rfl, by decide⟩)⟩

/-- C3: a verify with a wrong candidate against a present, unexpired record
returns false and leaves the state exactly as it was, so a later verify
with the stored code within the TTL window still returns true; moreover
every verify call performs at most one store mutation, namely the removal
of the looked-up key on success only. -/
theorem verify_wrong_code_non_consuming (s : OTPServiceState) (d c₂ : String)
    (r : OTPRecord) (now : Nat)
    (hrec : s.otpStore d = some r) (hexp : now ≤ r.expiresAt)
    (hne : r.otp ≠ c₂) :
    verifyOTP s d c₂ now = (false, s) ∧
    (∀ now₂, now₂ ≤ r.expiresAt → (verifyOTP s d r.otp now₂).1 = true) ∧
    (∀ (t : OTPServiceState) (x : String) (m : Nat),
      (verifyOTP t d x m).2 = t ∨
        ((verifyOTP t d x m).1 = true ∧
          (verifyOTP t d x m).2 =
            { t with otpStore := fun y => if y = d then none else t.otpStore y })) := by
  refine ⟨verifyOTP_miss s d c₂ r now hrec (by omega) hne, ?_, ?_⟩
  · intro now₂ h₂
    rw [verifyOTP_hit s d r.otp r now₂ hrec (by omega) rfl]
  · intro t x m
    exact verifyOTP_mutation t d x m

/-- C3 witness: concrete wrong-code attempt against boundaryState. -/
theorem verify_wrong_code_non_consuming_witness :
    boundaryState.otpStore "5550001" = some { otp := "123456", expiresAt := 5 } ∧
    (3 : Nat) ≤ 5 ∧ "123456" ≠ "999999" ∧
    (verifyOTP boundaryState "5550001" "999999" 3 = (false, boundaryState) ∧
      (verifyOTP boundaryState "5550001" "123456" 4).1 = true) := by
  have h := verify_wrong_code_non_consuming boundaryState "5550001" "999999"
    { otp := "123456", expiresAt := 5 } 3 rfl (by decide) (by decide)
  exact ⟨rfl, by omega, by decide, h.1, h.2.1 4 (by decide)⟩

/-- C4 counterexample: the claim says an expired record is deleted from the
store as a side effect of the failed verify; but the code only returns
false on expiry, and the record is still present afterwards. -/
theorem verify_expired_does_not_delete :
    expiredState.otpStore "5550002" = some { otp := "654321", expiresAt := 10 } ∧
    (verifyOTP expiredState "5550002" "654321" 999).1 = false ∧
    (verifyOTP expiredState "5550002" "654321" 999).2.otpStore "5550002" =
      some { otp := "654321", expiresAt := 10 } := by
  refine ⟨rfl, rfl, rfl⟩

/-- C4 amended: when verify finds a record whose expiry is strictly in the
past it returns false and leaves the record in place (no deletion); the
record is merely treated as absent thereafter, every later verify at that
or a later time returning false even with the correct code. -/
theorem verify_expired_leaves_record (s : OTPServiceState) (d c : String)
    (r : OTPRecord) (now : Nat)
    (hrec : s.otpStore d = some r) (hexp : r.expiresAt < now) :
    verifyOTP s d c now = (false, s) ∧
    ∀ (c₂ : String) (now₂ : Nat), now ≤ now₂ →
      (verifyOTP s d c₂ now₂).1 = false := by
  refine ⟨verifyOTP_dead s d c now (Or.inr ⟨r, hrec, hexp⟩), ?_⟩
  intro c₂ now₂ h₂
  rw [verifyOTP_dead s d c₂ now₂ (Or.inr ⟨r, hrec, by omega⟩)]

/-- C4 amended witness: concrete expired record verified at time 999. -/
theorem verify_expired_leaves_record_witness :
    expiredState.otpStore "5550002" = some { otp := "654321", expiresAt := 10 } ∧
    (10 : Nat) < 999 ∧
    (verifyOTP expiredState "5550002" "654321" 999 = (false, expiredState) ∧
      (verifyOTP expiredState "5550002" "654321" 1000).1 = false) := by
  have h := verify_expired_leaves_record expiredState "5550002" "654321"
    { otp := "654321", expiresAt := 10 } 999 rfl (by decide)
  exact ⟨rfl, by omega, h.1, h.2 "654321" 1000 (by omega)⟩

/-- C5: requestCode never fails observably: whatever the outcome of the
delivery call, including a thrown error, sendOTP completes with exactly
the state produced by storing the fresh record, which maps the destination
to the generated code; and the sendSms shim itself swallows every failure
of the underlying send and always returns ok. -/
theorem requestCode_failure_isolation (s : OTPServiceState) (d : String)
    (k now : Nat) (smsResult : Except String Bool) :
    sendOTP s d k now smsResult = (generateUniqueOTP s d k now).2 ∧
    (sendOTP s d k now smsResult).otpStore d =
      some { otp := generateOTP k, expiresAt := now + 5 * 60 * 1000 } ∧
    ∀ (avail : Bool) (sendResult : Except String Unit),
      ∃ b, sendSms avail sendResult = Except.ok b := by
  refine ⟨sendOTP_eq_gen s d k now smsResult, ?_, ?_⟩
  · rw [sendOTP_eq_gen]
    exact gen_store_self s d k now
  · intro avail sendResult
    cases avail <;> cases sendResult <;> exact ⟨true, rfl⟩

/-- C6: each requestCode call sets the record for the destination to the
freshly generated code with expiry now + 5 minutes and leaves every other
destination of the store unchanged. -/
theorem requestCode_postcondition_frame (s : OTPServiceState) (d : String)
    (k now : Nat) (smsResult : Except String Bool) :
    (sendOTP s d k now smsResult).otpStore d =
      some { otp := generateOTP k, expiresAt := now + 5 * 60 * 1000 } ∧
    ∀ d₂, d₂ ≠ d → (sendOTP s d k now smsResult).otpStore d₂ = s.otpStore d₂ := by
  rw [sendOTP_eq_gen]
  exact ⟨gen_store_self s d k now, fun d₂ h => gen_store_other s d d₂ k now h⟩

/-- C6 witness: concrete issuance for 5550001 leaves 5550002 untouched. -/
theorem requestCode_postcondition_frame_witness :
    (sendOTP initialState "5550001" 0 0 (Except.ok true)).otpStore "5550001" =
      some { otp := generateOTP 0, expiresAt := 0 + 5 * 60 * 1000 } ∧
    (sendOTP initialState "5550001" 0 0 (Except.ok true)).otpStore "5550002" =
      initialState.otpStore "5550002" :=
  ⟨(requestCode_postcondition_frame initialState "5550001" 0 0 (Except.ok true)).1,
    (requestCode_postcondition_frame initialState "5550001" 0 0
      (Except.ok true)).2 "5550002" (by decide)⟩

/-- C8: the store keyed by destination holds at most one record per
destination, so after a second requestCode for the same destination the
lookup yields exactly the latest record; the latest code then verifies
successfully within its TTL while the superseded code (when different)
is rejected. -/
theorem request_twice_last_write_wins (s : OTPServiceState) (d : String)
    (k₁ k₂ now₁ now₂ now₃ : Nat) (r₁ r₂ : Except String Bool)
    (hc : generateOTP k₁ ≠ generateOTP k₂)
    (hv : now₃ ≤ now₂ + 5 * 60 * 1000) :
    (sendOTP (sendOTP s d k₁ now₁ r₁) d k₂ now₂ r₂).otpStore d =
      some { otp := generateOTP k₂, expiresAt := now₂ + 5 * 60 * 1000 } ∧
    (verifyOTP (sendOTP (sendOTP s d k₁ now₁ r₁) d k₂ now₂ r₂)
        d (generateOTP k₂) now₃).1 = true ∧
    (verifyOTP (sendOTP (sendOTP s d k₁ now₁ r₁) d k₂ now₂ r₂)
        d (generateOTP k₁) now₃).1 = false := by
  have hrec : (sendOTP (sendOTP s d k₁ now₁ r₁) d k₂ now₂ r₂).otpStore d =
      some { otp := generateOTP k₂, expiresAt := now₂ + 5 * 60 * 1000 } := by
    rw [sendOTP_eq_gen]
    exact gen_store_self _ d k₂ now₂
  have hexp : ¬ (now₂ + 5 * 60 * 1000) < now₃ := by omega
  refine ⟨hrec, ?_, ?_⟩
  · rw [verifyOTP_hit _ d (generateOTP k₂) _ now₃ hrec hexp rfl]
  · rw [verifyOTP_miss _ d (generateOTP k₁) _ now₃ hrec hexp
      (fun hcontra => hc hcontra.symm)]

/-- C8 witness: two concrete issuances for 5550001 with distinct codes
100000 and 100001; only the second code verifies. -/
theorem request_twice_last_write_wins_witness :
    generateOTP 0 ≠ generateOTP 1 ∧ (0 : Nat) ≤ 0 + 5 * 60 * 1000 ∧
    ((sendOTP (sendOTP initialState "5550001" 0 0 (Except.ok true))
        "5550001" 1 0 (Except.ok true)).otpStore "5550001" =
      some { otp := generateOTP 1, expiresAt := 0 + 5 * 60 * 1000 } ∧
      (verifyOTP (sendOTP (sendOTP initialState "5550001" 0 0 (Except.ok true))
          "5550001" 1 0 (Except.ok true)) "5550001" (generateOTP 1) 0).1 = true ∧
      (verifyOTP (sendOTP (sendOTP initialState "5550001" 0 0 (Except.ok true))
          "5550001" 1 0 (Except.ok true)) "5550001" (generateOTP 0) 0).1 = false) :=
  ⟨by decide, by omega,
    request_twice_last_write_wins initialState "5550001" 0 1 0 0 0
      (Except.ok true) (Except.ok true) (by decide) (by omega)⟩

/-- C9: the development accessor returns the code generated by the latest
requestCode call, whatever the destination and whatever the state before
that call, and returns none on the initial state where no code has ever
been generated. -/
theorem peekLastIssuedCode_spec (s : OTPServiceState) (d : String)
    (k now : Nat) (smsResult : Except String Bool) :
    getLatestOtpForDevelopment initialState = none ∧
    getLatestOtpForDevelopment (sendOTP s d k now smsResult) =
      some (generateOTP k) := by
  refine ⟨rfl, ?_⟩
  rw [sendOTP_eq_gen]
  rfl

/-- C10: verify never modifies the latest-issued-code field: after any
verify call, successful or not, the development accessor returns exactly
what it returned before the call. -/
theorem verify_preserves_latest_code (s : OTPServiceState) (d c : String)
    (now : Nat) :
    getLatestOtpForDevelopment (verifyOTP s d c now).2 =
      getLatestOtpForDevelopment s := by
  rcases verifyOTP_mutation s d c now with h | ⟨_, h⟩
  · rw [h]
  · rw [h]
    rfl

/-- C7: every code the generator can produce (randomness k ranging over
the floored values of Math.random() times 900000, so k < 900000) is a
string of exactly 6 characters, all ASCII digits, and it parses to the
numeric value 100000 + k, which lies between 100000 and 999999, so no
generated code has a leading zero. -/
theorem generateOTP_shape (k : Nat) (h : k < 900000) :
    (generateOTP k).length = 6 ∧
    (∀ c ∈ (generateOTP k).data, c.isDigit = true) ∧
    (generateOTP k).toNat? = some (100000 + k) ∧
    100000 ≤ 100000 + k ∧ 100000 + k ≤ 999999 := by
  have hpos : 0 < 100000 + k := by omega
  have hstr := toString_eq_toDigitsList (100000 + k) hpos
  refine ⟨?_, ?_, ?_, by omega, by omega⟩
  · show (toString (100000 + k)).length = 6
    rw [hstr]
    have hlen : ((toDigitsList (100000 + k)).asString).length =
        (toDigitsList (100000 + k)).length := rfl
    rw [hlen]
    rw [toDigitsList_length 5 (100000 + k) (by norm_num)
      (by norm_num; omega)]
  · show ∀ c ∈ (toString (100000 + k)).data, c.isDigit = true
    rw [hstr]
    intro c hc
    exact toDigitsList_mem_isDigit (100000 + k) c hc
  · exact toNat?_toString (100000 + k) hpos

/-- C7 witness: randomness 23456 yields the concrete code 123456 with all
the claimed shape properties. -/
theorem generateOTP_shape_witness :
    23456 < 900000 ∧
    ((generateOTP 23456).length = 6 ∧
      (∀ c ∈ (generateOTP 23456).data, c.isDigit = true) ∧
      (generateOTP 23456).toNat? = some (100000 + 23456) ∧
      100000 ≤ 100000 + 23456 ∧ 100000 + 23456 ≤ 999999) :=
  ⟨by decide, generateOTP_shape 23456 (by decide)⟩

end VidZen
